import Mathlib

/-!
Verification of the DSPy multi-agent example (`src/example.py`).

The repository builds four specialist agents (math, text, time, weather), each a
`dspy.ReAct` loop over a small tool registry, wraps each one as a plain
string-to-string callable, and places those callables in the tool registry of a
coordinator agent (`MainAgent`).

The reasoning-acting loop itself (`dspy.ReAct`) is an external library not
present in the repository source; the engine definitions below are therefore
modelled from the specification (section 4.1): decisions come from an abstract
decision capability (an oracle function of the input and the trajectory so
far), tool failures are stringified into observations, a finish decision
terminates the loop, and exhausting the iteration budget yields a best-effort
result synthesized from the last observation.

Concrete tool bodies, the nested-agent wrapper functions, the trajectory
renderer and the tracing decorator are translated directly from
`src/example.py`. Python floats are modelled as exact rationals (the inputs the
claims exercise are exactly representable); console printing is modelled as a
returned list of log lines; Python exceptions are modelled with `Except`;
network and clock collaborators are abstract environments.
-/

/-- A value passed to or returned from a tool: a string or a number
(Python floats modelled as exact rationals). -/
inductive Value where
  | str (s : String)
  | num (q : ℚ)
deriving DecidableEq

/-- A tool failure, split as in spec section 4.2: an argument shape/type
mismatch detected before execution, or a failure raised during execution. -/
inductive ToolFailure where
  | invalidCall (msg : String)
  | execFailed (msg : String)
deriving DecidableEq

/-- A named tool: the unit of work an agent can invoke.  `run` models the
Python callable, with raised exceptions as `Except.error`. -/
structure Tool where
  name : String
  run : List Value → Except ToolFailure Value

/-- One turn of a trajectory: thought, chosen tool, arguments, observation,
mirroring the `thought_i` / `tool_name_i` / `tool_args_i` / `observation_i`
entries of a dspy ReAct trajectory. -/
structure Turn where
  thought : String
  tool_name : String
  tool_args : List Value
  observation : String
deriving DecidableEq

/-- A decision returned by the model-decision capability: either call a named
tool with arguments, or finish with a value for the declared output field. -/
inductive Decision where
  | toolCall (thought : String) (name : String) (args : List Value)
  | finish (thought : String) (output : String)
deriving DecidableEq

/-- The model-decision capability: given the input query and the trajectory so
far, produce exactly one decision.  This is the external collaborator of spec
section 6, stubbed as a deterministic function. -/
def Oracle : Type := String → List Turn → Decision

/-- The final result of one agent invocation: the declared primary output field
value, the full trajectory, and whether the iteration budget was exhausted. -/
structure AgentResult where
  output : String
  trajectory : List Turn
  budgetExceeded : Bool
deriving DecidableEq

/-- Render a tool value as the observation string fed back into the loop. -/
def valueToString : Value → String
  | .str s => s
  | .num q => toString q

/-- Resolve a tool by name in a registry (first match wins). -/
def lookupTool (reg : List Tool) (n : String) : Option Tool :=
  reg.find? (fun t => t.name == n)

/-- The observation of the last turn, or the empty string for an empty
trajectory.  Used to synthesize a best-effort output on budget exhaustion. -/
def lastObservation (traj : List Turn) : String :=
  (traj.getLast?.map Turn.observation).getD ""

/-- Modelled from the spec: the observation produced by executing one tool-call
decision (spec section 4.1 step 3).  An unknown tool name, an invalid argument
shape and a failure raised during execution are each stringified into the
observation rather than propagated. -/
def observationOfCall (reg : List Tool) (n : String) (args : List Value) : String :=
  match lookupTool reg n with
  | none => "UnknownTool: " ++ n
  | some t =>
      match t.run args with
      | .ok v => valueToString v
      | .error (.invalidCall m) => "InvalidToolCall: " ++ m
      | .error (.execFailed m) => "Error: " ++ m

/-- Modelled from the spec: the reasoning-acting loop engine of spec section
4.1 (`dspy.ReAct` is an external library, absent from the repository source).
Each iteration asks the decision capability for a decision; a tool call
appends one turn with the tool observation and continues; a finish decision
terminates with the supplied output; exhausting the budget terminates with a
`budgetExceeded` result whose output is synthesized from the last
observation. -/
def runLoop (reg : List Tool) (dec : List Turn → Decision) : Nat → List Turn → AgentResult
  | 0, traj => { output := lastObservation traj, trajectory := traj, budgetExceeded := true }
  | fuel + 1, traj =>
      match dec traj with
      | .finish _ out => { output := out, trajectory := traj, budgetExceeded := false }
      | .toolCall th n args =>
          runLoop reg dec fuel
            (traj ++ [{ thought := th, tool_name := n, tool_args := args,
                        observation := observationOfCall reg n args }])

/-- An agent instance: signature field names, instruction text, tool registry
and iteration budget, as configured by each `dspy.ReAct(...)` call in
`src/example.py`. -/
structure AgentCfg where
  inputField : String
  outputField : String
  instruction : String
  registry : List Tool
  max_iters : Nat

/-- Modelled from the spec: one full agent invocation — run the loop from an
empty trajectory with the agent's registry and budget (spec section 4.1).
Each invocation starts from a fresh empty trajectory. -/
def runAgent (a : AgentCfg) (oracle : Oracle) (query : String) : AgentResult :=
  runLoop a.registry (oracle query) a.max_iters []

/-- `add_numbers` from `src/example.py`: add two numbers and return the sum. -/
def add_numbers (a b : ℚ) : ℚ := a + b

/-- `multiply_numbers` from `src/example.py`: multiply two numbers and return
the product. -/
def multiply_numbers (a b : ℚ) : ℚ := a * b

/-- `add_numbers` wrapped as a registry tool. -/
def add_numbers_tool : Tool where
  name := "add_numbers"
  run := fun args =>
    match args with
    | [.num a, .num b] => .ok (.num (add_numbers a b))
    | _ => .error (.invalidCall "add_numbers expects two numbers")

/-- `multiply_numbers` wrapped as a registry tool. -/
def multiply_numbers_tool : Tool where
  name := "multiply_numbers"
  run := fun args =>
    match args with
    | [.num a, .num b] => .ok (.num (multiply_numbers a b))
    | _ => .error (.invalidCall "multiply_numbers expects two numbers")

/-- `math_tools` from `src/example.py`. -/
def math_tools : List Tool := [add_numbers_tool, multiply_numbers_tool]

/-- `count_words` from `src/example.py`: `len(text.split())` — split on
whitespace runs, dropping empty pieces. -/
def count_words (text : String) : Nat :=
  ((text.split Char.isWhitespace).filter (fun w => !w.isEmpty)).length

/-- `reverse_text` from `src/example.py`: `text[::-1]` — reverse the sequence
of code points. -/
def reverse_text (text : String) : String :=
  String.mk text.data.reverse

/-- `count_words` wrapped as a registry tool. -/
def count_words_tool : Tool where
  name := "count_words"
  run := fun args =>
    match args with
    | [.str t] => .ok (.num (count_words t))
    | _ => .error (.invalidCall "count_words expects one string")

/-- `reverse_text` wrapped as a registry tool. -/
def reverse_text_tool : Tool where
  name := "reverse_text"
  run := fun args =>
    match args with
    | [.str t] => .ok (.str (reverse_text t))
    | _ => .error (.invalidCall "reverse_text expects one string")

/-- `text_tools` from `src/example.py`. -/
def text_tools : List Tool := [count_words_tool, reverse_text_tool]

/-- The clock collaborator behind the time tools: given a timezone name,
return the formatted current time there (`datetime.now(tz).strftime(...)`). -/
structure Clock where
  nowIn : String → String

/-- `get_usa_time` from `src/example.py`: current time in America/New_York. -/
def get_usa_time (clock : Clock) : String := clock.nowIn "America/New_York"

/-- `get_china_time` from `src/example.py`: current time in Asia/Shanghai. -/
def get_china_time (clock : Clock) : String := clock.nowIn "Asia/Shanghai"

/-- `get_usa_time` wrapped as a registry tool. -/
def get_usa_time_tool (clock : Clock) : Tool where
  name := "get_usa_time"
  run := fun args =>
    match args with
    | [] => .ok (.str (get_usa_time clock))
    | _ => .error (.invalidCall "get_usa_time expects no arguments")

/-- `get_china_time` wrapped as a registry tool. -/
def get_china_time_tool (clock : Clock) : Tool where
  name := "get_china_time"
  run := fun args =>
    match args with
    | [] => .ok (.str (get_china_time clock))
    | _ => .error (.invalidCall "get_china_time expects no arguments")

/-- `time_tools` from `src/example.py`, parameterized by the clock. -/
def time_tools (clock : Clock) : List Tool :=
  [get_usa_time_tool clock, get_china_time_tool clock]

/-- One geocoding result record (`geo_data['results'][0]`). -/
structure GeoResult where
  latitude : ℚ
  longitude : ℚ
  name : String
  country : Option String

/-- The `current` block of an Open-Meteo forecast response. -/
structure CurrentWeather where
  temperature_2m : ℚ
  relative_humidity_2m : ℚ
  wind_speed_10m : ℚ

/-- The HTTP/JSON collaborators behind the weather tools.  `Except.error`
models any raised failure (network error, timeout, malformed JSON); an `.ok
none` geocode models a response with no `results`. -/
structure WeatherEnv where
  geocode : String → Except String (Option GeoResult)
  current : ℚ → ℚ → Except String CurrentWeather

/-- The not-found message `f"City '{city}' not found"`. -/
def cityNotFound (city : String) : String :=
  "City \x27" ++ city ++ "\x27 not found"

/-- The weather report string returned on success by `get_weather_by_city`. -/
def weatherReport (loc : GeoResult) (w : CurrentWeather) : String :=
  "Weather in " ++ loc.name ++ ", " ++ loc.country.getD "Unknown" ++
    ": Temperature: " ++ toString w.temperature_2m ++ "°C, Humidity: " ++
    toString w.relative_humidity_2m ++ "%, Wind Speed: " ++
    toString w.wind_speed_10m ++ " km/h"

/-- The body of the `try:` block of `get_weather_by_city`: geocode the city,
return a not-found message when there are no results, otherwise fetch and
format the current weather.  A collaborator failure escapes as `.error`. -/
def get_weather_by_city_body (env : WeatherEnv) (city_name : String) :
    Except String String := do
  let geo ← env.geocode city_name
  match geo with
  | none => pure (cityNotFound city_name)
  | some loc => do
      let w ← env.current loc.latitude loc.longitude
      pure (weatherReport loc w)

/-- `get_weather_by_city` from `src/example.py`: the body wrapped in
`try/except`, turning any raised failure into an error string. -/
def get_weather_by_city (env : WeatherEnv) (city_name : String) : String :=
  match get_weather_by_city_body env city_name with
  | .ok s => s
  | .error e => "Error fetching weather: " ++ e

/-- The comparison string returned on success by `compare_city_temperatures`.
`warmer` mirrors `city1 if temps[city1] > temps[city2] else city2`. -/
def temperatureComparison (city1 city2 : String) (t1 t2 : ℚ) : String :=
  "Temperature comparison: " ++ city1 ++ ": " ++ toString t1 ++ "°C, " ++
    city2 ++ ": " ++ toString t2 ++ "°C. " ++
    (if t1 > t2 then city1 else city2) ++ " is warmer by " ++
    toString |t1 - t2| ++ "°C"

/-- The body of the `try:` block of `compare_city_temperatures`: geocode and
fetch each city in order.  The Python `temps` dict is keyed by city name, so
when the two names coincide the second fetch overwrites the first and both
lookups see the second temperature. -/
def compare_city_temperatures_body (env : WeatherEnv) (city1 city2 : String) :
    Except String String := do
  let g1 ← env.geocode city1
  match g1 with
  | none => pure (cityNotFound city1)
  | some l1 => do
      let w1 ← env.current l1.latitude l1.longitude
      let g2 ← env.geocode city2
      match g2 with
      | none => pure (cityNotFound city2)
      | some l2 => do
          let w2 ← env.current l2.latitude l2.longitude
          let t1 := if city1 = city2 then w2.temperature_2m else w1.temperature_2m
          pure (temperatureComparison city1 city2 t1 w2.temperature_2m)

/-- `compare_city_temperatures` from `src/example.py`: the body wrapped in
`try/except`, turning any raised failure into an error string. -/
def compare_city_temperatures (env : WeatherEnv) (city1 city2 : String) : String :=
  match compare_city_temperatures_body env city1 city2 with
  | .ok s => s
  | .error e => "Error comparing temperatures: " ++ e

/-- `get_weather_by_city` wrapped as a registry tool. -/
def get_weather_by_city_tool (env : WeatherEnv) : Tool where
  name := "get_weather_by_city"
  run := fun args =>
    match args with
    | [.str c] => .ok (.str (get_weather_by_city env c))
    | _ => .error (.invalidCall "get_weather_by_city expects one string")

/-- `compare_city_temperatures` wrapped as a registry tool. -/
def compare_city_temperatures_tool (env : WeatherEnv) : Tool where
  name := "compare_city_temperatures"
  run := fun args =>
    match args with
    | [.str c1, .str c2] => .ok (.str (compare_city_temperatures env c1 c2))
    | _ => .error (.invalidCall "compare_city_temperatures expects two strings")

/-- `weather_tools` from `src/example.py`, parameterized by the HTTP
collaborators. -/
def weather_tools (env : WeatherEnv) : List Tool :=
  [get_weather_by_city_tool env, compare_city_temperatures_tool env]

/-- `MathAgent` from `src/example.py`: ReAct over `math_tools`,
`max_iters=3`, signature `math_query -> math_result`. -/
def mathAgent : AgentCfg where
  inputField := "math_query"
  outputField := "math_result"
  instruction := "Signature for mathematical operations agent"
  registry := math_tools
  max_iters := 3

/-- `TextAgent` from `src/example.py`: ReAct over `text_tools`,
`max_iters=3`, signature `text_query -> text_result`. -/
def textAgent : AgentCfg where
  inputField := "text_query"
  outputField := "text_result"
  instruction := "Signature for text processing operations agent"
  registry := text_tools
  max_iters := 3

/-- `TimeAgent` from `src/example.py`: ReAct over `time_tools`,
`max_iters=3`, signature `time_query -> time_result`. -/
def timeAgent (clock : Clock) : AgentCfg where
  inputField := "time_query"
  outputField := "time_result"
  instruction := "Find the timezone or location in the input query and return the corresponding time."
  registry := time_tools clock
  max_iters := 3

/-- `WeatherAgent` from `src/example.py`: ReAct over `weather_tools`,
`max_iters=3`, signature `weather_query -> weather_result`. -/
def weatherAgent (env : WeatherEnv) : AgentCfg where
  inputField := "weather_query"
  outputField := "weather_result"
  instruction := "Find weather and temperature information and structure into the requested output form."
  registry := weather_tools env
  max_iters := 3

/-- `math_calculator` from `src/example.py`: construct a fresh `MathAgent`,
run its full loop on the query, and return only `prediction.math_result` —
the declared primary output field of the wrapped agent.  The wrapped agent's
decision capability is the `oracle` parameter. -/
def math_calculator (oracle : Oracle) (math_query : String) : String :=
  (runAgent mathAgent oracle math_query).output

/-- `text_processor` from `src/example.py`: run a fresh `TextAgent` and
return only `prediction.text_result`. -/
def text_processor (oracle : Oracle) (text_query : String) : String :=
  (runAgent textAgent oracle text_query).output

/-- `time_checker` from `src/example.py`: run a fresh `TimeAgent` and return
only `prediction.time_result`. -/
def time_checker (clock : Clock) (oracle : Oracle) (time_query : String) : String :=
  (runAgent (timeAgent clock) oracle time_query).output

/-- `weather_checker` from `src/example.py`: run a fresh `WeatherAgent` and
return only `prediction.weather_result`. -/
def weather_checker (env : WeatherEnv) (oracle : Oracle) (weather_query : String) : String :=
  (runAgent (weatherAgent env) oracle weather_query).output

/-- A string-to-string callable (a nested-agent wrapper function) exposed as a
registry tool taking a single string argument. -/
def adapterTool (toolName : String) (f : String → String) : Tool where
  name := toolName
  run := fun args =>
    match args with
    | [.str q] => .ok (.str (f q))
    | _ => .error (.invalidCall "expected a single string argument")

/-- `MainAgent` from `src/example.py`: ReAct with `max_iters=5` whose tools
are exactly the four nested-agent wrapper functions, signature
`user_query -> final_answer`.  `oM`, `oX`, `oT`, `oW` are the decision
capabilities of the wrapped math, text, time and weather agents. -/
def mainAgent (clock : Clock) (env : WeatherEnv) (oM oX oT oW : Oracle) : AgentCfg where
  inputField := "user_query"
  outputField := "final_answer"
  instruction := "You are an intelligent coordinator that breaks down complex queries into sub-tasks."
  registry :=
    [adapterTool "math_calculator" (math_calculator oM),
     adapterTool "text_processor" (text_processor oX),
     adapterTool "time_checker" (time_checker clock oT),
     adapterTool "weather_checker" (weather_checker env oW)]
  max_iters := 5

/-- A key of the trajectory dict: `f"thought_{i}"`, `f"tool_name_{i}"`,
`f"tool_args_{i}"` or `f"observation_{i}"`, modelled as a tagged index. -/
inductive TrajKey where
  | thought (i : Nat)
  | tool_name (i : Nat)
  | tool_args (i : Nat)
  | observation (i : Nat)
deriving DecidableEq

/-- Render a tool-argument list the way the trajectory dict stores it. -/
def argsToString (args : List Value) : String :=
  String.intercalate ", " (args.map valueToString)

/-- Render a turn list as trajectory dict entries, numbering turns from `n`. -/
def renderFrom : Nat → List Turn → List (TrajKey × String)
  | _, [] => []
  | i, t :: ts =>
      (.thought i, t.thought) :: (.tool_name i, t.tool_name) ::
      (.tool_args i, argsToString t.tool_args) :: (.observation i, t.observation) ::
      renderFrom (i + 1) ts

/-- The trajectory dict of a prediction: turns rendered with indices from 0,
as `dspy.ReAct` stores them. -/
def renderTrajectory (ts : List Turn) : List (TrajKey × String) :=
  renderFrom 0 ts

/-- Dict lookup (`trajectory.get(key)` / `key in trajectory`). -/
def dictGet (d : List (TrajKey × String)) (k : TrajKey) : Option String :=
  (d.find? (fun e => decide (e.1 = k))).map (fun e => e.2)

/-- The `while f'thought_{max_iter}' in trajectory: max_iter += 1` scan of
`print_react_trajectory`, with explicit fuel (the Python loop terminates
because the dict is finite; `d.length + 1` steps always suffice). -/
def maxIterAux (d : List (TrajKey × String)) : Nat → Nat → Nat
  | 0, i => i
  | fuel + 1, i =>
      if (dictGet d (.thought i)).isSome then maxIterAux d fuel (i + 1) else i

/-- The turn count recovered by scanning `thought_0, thought_1, ...` until a
key is missing, as `print_react_trajectory` computes `max_iter`. -/
def maxIter (d : List (TrajKey × String)) : Nat :=
  maxIterAux d (d.length + 1) 0

/-- A `dspy.Prediction`: output fields plus the attached trajectory. -/
structure Prediction where
  trajectory : List Turn
  fields : List (String × String)

/-- The three lines printed for iteration `i` of a trajectory dict. -/
def turnLines (d : List (TrajKey × String)) (i : Nat) : List String :=
  ["Thinking: " ++ (dictGet d (.thought i)).getD "",
   "Action: " ++ (dictGet d (.tool_name i)).getD "" ++ "(" ++
     (dictGet d (.tool_args i)).getD "" ++ ")",
   "Result: " ++ (dictGet d (.observation i)).getD ""]

/-- `print_react_trajectory` from `src/example.py`, with console output
modelled as the returned list of lines: nothing for an empty trajectory,
otherwise the thought/action/result lines of iterations `0..max_iter-1`. -/
def print_react_trajectory (p : Prediction) : List String :=
  if p.trajectory.isEmpty then []
  else
    (List.range (maxIter (renderTrajectory p.trajectory))).flatMap
      (turnLines (renderTrajectory p.trajectory))

/-- The final-answer lines of the tracing wrapper: every output field except
`trajectory` and `reasoning`. -/
def finalAnswerLines (p : Prediction) : List String :=
  p.fields.filterMap (fun kv =>
    if kv.1 = "trajectory" ∨ kv.1 = "reasoning" then none
    else some ("      " ++ kv.1 ++ ": " ++ kv.2))

/-- `trace_agent` from `src/example.py`, with console output modelled as a
returned list of log lines and a raised exception modelled as `Except.error`.
The wrapper announces the start, runs the wrapped function, prints the
trajectory and final answer when the result is a `dspy.Prediction`
(`asPrediction` models the `isinstance` view of the result), and returns the
wrapped function's result unchanged; when the wrapped function raises, it
logs the failure and re-raises the same exception. -/
def trace_agent {α β : Type} (agent_name : String) (asPrediction : β → Option Prediction)
    (func : α → Except String β) (a : α) : Except String β × List String :=
  let startLines := ["[" ++ agent_name ++ "] STARTED"]
  match func a with
  | .ok result =>
      let predLines :=
        match asPrediction result with
        | some p => print_react_trajectory p ++ ["Final Answer:"] ++ finalAnswerLines p
        | none => []
      (.ok result, startLines ++ predLines ++ ["[" ++ agent_name ++ "] FINISHED"])
  | .error e =>
      (.error e, startLines ++ ["Error: " ++ e, "[" ++ agent_name ++ "] FAILED"])

/-- The decision capability never issues a finish decision (spec section 8,
budget-exhaustion scenario). -/
def alwaysCalls (dec : List Turn → Decision) : Prop :=
  ∀ traj, ∃ th n args, dec traj = .toolCall th n args

/-- One invocation of an agent exhausted its budget: the trajectory is fully
populated (one turn per budgeted iteration), the result is flagged, and the
output is synthesized from the last observation. -/
def exhaustedRun (a : AgentCfg) (oracle : Oracle) (q : String) : Prop :=
  (runAgent a oracle q).trajectory.length = a.max_iters ∧
  (runAgent a oracle q).budgetExceeded = true ∧
  (runAgent a oracle q).output = lastObservation (runAgent a oracle q).trajectory

/-- A deterministic stub clock. -/
def stubClock : Clock := ⟨fun _ => "2026-01-01 00:00:00 UTC"⟩

/-- A weather environment whose collaborators always fail (network down). -/
def offlineEnv : WeatherEnv := ⟨fun _ => .error "offline", fun _ _ => .error "offline"⟩

/-- A stub decision capability that always calls `add_numbers` and never
finishes. -/
def callAddOracle : Oracle :=
  fun _ _ => .toolCall "call" "add_numbers" [.num 1, .num 2]

theorem runLoop_length_le (reg : List Tool) (dec : List Turn → Decision) :
    ∀ (fuel : Nat) (traj : List Turn),
      (runLoop reg dec fuel traj).trajectory.length ≤ traj.length + fuel := by
  intro fuel
  induction fuel with
  | zero => intro traj; simp [runLoop]
  | succ fuel ih =>
      intro traj
      cases h : dec traj with
      | finish th out =>
          simp [runLoop, h]
      | toolCall th n args =>
          have h2 := ih (traj ++ [{ thought := th, tool_name := n, tool_args := args,
                                    observation := observationOfCall reg n args }])
          simp only [runLoop, h]
          simp only [List.length_append, List.length_cons, List.length_nil] at h2
          omega

theorem runLoop_extends (reg : List Tool) (dec : List Turn → Decision) :
    ∀ (fuel : Nat) (traj : List Turn),
      ∃ rest, (runLoop reg dec fuel traj).trajectory = traj ++ rest := by
  intro fuel
  induction fuel with
  | zero => intro traj; exact ⟨[], by simp [runLoop]⟩
  | succ fuel ih =>
      intro traj
      cases h : dec traj with
      | finish th out => exact ⟨[], by simp [runLoop, h]⟩
      | toolCall th n args =>
          obtain ⟨rest, hrest⟩ :=
            ih (traj ++ [{ thought := th, tool_name := n, tool_args := args,
                           observation := observationOfCall reg n args }])
          refine ⟨{ thought := th, tool_name := n, tool_args := args,
                    observation := observationOfCall reg n args } :: rest, ?_⟩
          simp only [runLoop, h]
          simpa using hrest

theorem runLoop_toolCall_step (reg : List Tool) (dec : List Turn → Decision)
    (fuel : Nat) (traj : List Turn) (th n : String) (args : List Value)
    (h : dec traj = .toolCall th n args) :
    runLoop reg dec (fuel + 1) traj =
      runLoop reg dec fuel
        (traj ++ [{ thought := th, tool_name := n, tool_args := args,
                    observation := observationOfCall reg n args }]) := by
  simp [runLoop, h]

theorem runLoop_alwaysCalls (reg : List Tool) (dec : List Turn → Decision)
    (h : alwaysCalls dec) :
    ∀ (fuel : Nat) (traj : List Turn),
      (runLoop reg dec fuel traj).trajectory.length = traj.length + fuel ∧
      (runLoop reg dec fuel traj).budgetExceeded = true ∧
      (runLoop reg dec fuel traj).output = lastObservation (runLoop reg dec fuel traj).trajectory := by
  intro fuel
  induction fuel with
  | zero => intro traj; simp [runLoop]
  | succ fuel ih =>
      intro traj
      obtain ⟨th, n, args, hc⟩ := h traj
      rw [runLoop_toolCall_step reg dec fuel traj th n args hc]
      have h2 := ih (traj ++ [{ thought := th, tool_name := n, tool_args := args,
                                observation := observationOfCall reg n args }])
      refine ⟨?_, h2.2.1, h2.2.2⟩
      rw [h2.1]
      simp
      omega

theorem runLoop_congr (reg : List Tool) (d1 d2 : List Turn → Decision)
    (h : ∀ t, d1 t = d2 t) :
    ∀ (fuel : Nat) (traj : List Turn),
      runLoop reg d1 fuel traj = runLoop reg d2 fuel traj := by
  intro fuel
  induction fuel with
  | zero => intro traj; rfl
  | succ fuel ih =>
      intro traj
      simp only [runLoop, h traj]
      cases d2 traj with
      | finish th out => rfl
      | toolCall th n args => exact ih _

theorem runLoop_finish_step (reg : List Tool) (dec : List Turn → Decision)
    (fuel : Nat) (traj : List Turn) (th out : String)
    (h : dec traj = .finish th out) :
    runLoop reg dec (fuel + 1) traj =
      { output := out, trajectory := traj, budgetExceeded := false } := by
  simp [runLoop, h]

theorem except_bind_ok {α β ε : Type} (a : α) (f : α → Except ε β) :
    (Except.ok a : Except ε α) >>= f = f a := rfl

theorem except_bind_error {α β ε : Type} (e : ε) (f : α → Except ε β) :
    (Except.error e : Except ε α) >>= f = Except.error e := rfl

theorem renderFrom_length (ts : List Turn) :
    ∀ n, (renderFrom n ts).length = 4 * ts.length := by
  induction ts with
  | nil => intro n; simp [renderFrom]
  | cons t ts ih =>
      intro n
      simp [renderFrom, ih (n + 1)]
      omega

theorem dictGet_renderFrom_thought (ts : List Turn) :
    ∀ (n i : Nat),
      (dictGet (renderFrom n ts) (TrajKey.thought i)).isSome = true ↔
        n ≤ i ∧ i < n + ts.length := by
  induction ts with
  | nil => intro n i; simp [renderFrom, dictGet]
  | cons t ts ih =>
      intro n i
      by_cases h : n = i
      · subst h
        simp [renderFrom, dictGet, List.find?]
      · have h2 := ih (n + 1) i
        simp only [renderFrom, dictGet, List.find?, List.length_cons] at h2 ⊢
        simp only [decide_eq_true_eq, TrajKey.thought.injEq] at h2 ⊢
        simp [h]
        simp [dictGet] at h2
        rw [h2]
        omega

theorem maxIterAux_eq (d : List (TrajKey × String)) (L : Nat)
    (hkey : ∀ i, (dictGet d (TrajKey.thought i)).isSome = true ↔ i < L) :
    ∀ (fuel i : Nat), i ≤ L → L ≤ i + fuel → maxIterAux d fuel i = L := by
  intro fuel
  induction fuel with
  | zero => intro i h1 h2; simp [maxIterAux]; omega
  | succ fuel ih =>
      intro i h1 h2
      by_cases h : i < L
      · have hs : (dictGet d (TrajKey.thought i)).isSome = true := (hkey i).mpr h
        rw [maxIterAux, if_pos hs]
        exact ih (i + 1) (by omega) (by omega)
      · have hs : ¬((dictGet d (TrajKey.thought i)).isSome = true) := by
          intro hs
          exact h ((hkey i).mp hs)
        rw [maxIterAux, if_neg hs]
        omega

theorem maxIter_renderTrajectory (ts : List Turn) :
    maxIter (renderTrajectory ts) = ts.length := by
  have hkey : ∀ i,
      (dictGet (renderTrajectory ts) (TrajKey.thought i)).isSome = true ↔ i < ts.length := by
    intro i
    have := dictGet_renderFrom_thought ts 0 i
    simpa [renderTrajectory] using this
  have hlen : (renderTrajectory ts).length = 4 * ts.length := by
    simpa [renderTrajectory] using renderFrom_length ts 0
  exact maxIterAux_eq (renderTrajectory ts) ts.length hkey
    ((renderTrajectory ts).length + 1) 0 (by omega) (by omega)

/-- C2: the coordinator (`MainAgent`) is a single agent invocation whose tool
registry is exactly the four nested-agent adapters (`math_calculator`,
`text_processor`, `time_checker`, `weather_checker`) and nothing else, its
iteration budget is `max_iters = 5`, and that one budget bounds the
coordinator's own loop — hence the total number of specialist calls (one per
trajectory turn) made for one user query is at most 5. -/
theorem coordinator_structure (clock : Clock) (env : WeatherEnv)
    (oM oX oT oW : Oracle) (cO : Oracle) (q : String) :
    (mainAgent clock env oM oX oT oW).max_iters = 5 ∧
    (mainAgent clock env oM oX oT oW).registry =
      [adapterTool "math_calculator" (math_calculator oM),
       adapterTool "text_processor" (text_processor oX),
       adapterTool "time_checker" (time_checker clock oT),
       adapterTool "weather_checker" (weather_checker env oW)] ∧
    (mainAgent clock env oM oX oT oW).registry.map Tool.name =
      ["math_calculator", "text_processor", "time_checker", "weather_checker"] ∧
    (runAgent (mainAgent clock env oM oX oT oW) cO q).trajectory.length ≤ 5 := by
  refine ⟨rfl, rfl, rfl, ?_⟩
  have := runLoop_length_le (mainAgent clock env oM oX oT oW).registry (cO q) 5 []
  simpa [runAgent, mainAgent] using this

/-- C3: for every loop run of any agent, the trajectory has at most
`max_iters` turns; its rendered turn indices (`thought_i` keys) are exactly
the contiguous range `0..k-1` — equivalently the renderer's `while
thought_i in trajectory` scan recovers exactly the turn count — and during
the run the trajectory only ever grows by appending (every continuation's
trajectory extends the trajectory it started from). -/
theorem trajectory_invariants (a : AgentCfg) (oracle : Oracle) (q : String) :
    (runAgent a oracle q).trajectory.length ≤ a.max_iters ∧
    (∀ i, (dictGet (renderTrajectory (runAgent a oracle q).trajectory)
        (TrajKey.thought i)).isSome = true ↔
          i < (runAgent a oracle q).trajectory.length) ∧
    maxIter (renderTrajectory (runAgent a oracle q).trajectory) =
      (runAgent a oracle q).trajectory.length ∧
    (∀ fuel traj, ∃ rest,
      (runLoop a.registry (oracle q) fuel traj).trajectory = traj ++ rest) := by
  refine ⟨?_, ?_, maxIter_renderTrajectory _, fun fuel traj => runLoop_extends a.registry (oracle q) fuel traj⟩
  · have := runLoop_length_le a.registry (oracle q) a.max_iters []
    simpa [runAgent] using this
  · intro i
    have := dictGet_renderFrom_thought ((runAgent a oracle q).trajectory) 0 i
    simpa [renderTrajectory] using this

/-- C5: with a decision capability that always requests a tool call and never
finishes, each specialist agent (all configured with `max_iters = 3`)
terminates after exactly 3 turns with a budget-exceeded flagged result whose
output is synthesized from the last observation and whose trajectory is fully
populated, rather than raising. -/
theorem budget_exhaustion (clock : Clock) (env : WeatherEnv)
    (oracle : Oracle) (q : String) (h : alwaysCalls (oracle q)) :
    mathAgent.max_iters = 3 ∧ textAgent.max_iters = 3 ∧
    (timeAgent clock).max_iters = 3 ∧ (weatherAgent env).max_iters = 3 ∧
    exhaustedRun mathAgent oracle q ∧ exhaustedRun textAgent oracle q ∧
    exhaustedRun (timeAgent clock) oracle q ∧ exhaustedRun (weatherAgent env) oracle q := by
  have key : ∀ b : AgentCfg, exhaustedRun b oracle q := by
    intro b
    have := runLoop_alwaysCalls b.registry (oracle q) h b.max_iters []
    unfold exhaustedRun runAgent
    simpa using this
  exact ⟨rfl, rfl, rfl, rfl, key _, key _, key _, key _⟩

/-- Witness for C5: a concrete never-finishing oracle run against
`MathAgent` exhausts the budget with exactly 3 turns. -/
theorem budget_exhaustion_witness :
    alwaysCalls (callAddOracle "what is 5 plus 3") ∧
    exhaustedRun mathAgent callAddOracle "what is 5 plus 3" :=
  have h : alwaysCalls (callAddOracle "what is 5 plus 3") :=
    fun _ => ⟨"call", "add_numbers", [Value.num 1, Value.num 2], rfl⟩
  ⟨h, (budget_exhaustion stubClock offlineEnv callAddOracle "what is 5 plus 3" h).2.2.2.2.1⟩

/-- C8: the tracing wrapper is a pure observer — the traced invocation
returns exactly the untraced invocation's result, and when the wrapped
function raises, the traced invocation re-raises the same exception (the
first component of `trace_agent` is `func a` in both the `.ok` and the
`.error` case). -/
theorem trace_agent_transparent {α β : Type} (agent_name : String)
    (asPrediction : β → Option Prediction) (func : α → Except String β) (a : α) :
    (trace_agent agent_name asPrediction func a).1 = func a := by
  unfold trace_agent
  cases h : func a <;> simp [h]

/-- C9: `reverse_text` is an involution and preserves the length (in code
points, matching Python string semantics) of its input. -/
theorem reverse_text_involutive (s : String) :
    reverse_text (reverse_text s) = s ∧ (reverse_text s).length = s.length := by
  cases s with
  | mk data =>
      constructor
      · simp [reverse_text]
      · simp [reverse_text, String.length]

/-- A stub tool whose execution always fails, modelling a tool body that
raises (e.g. a network failure). -/
def failingTool : Tool where
  name := "boom"
  run := fun _ => .error (.execFailed "network down")

/-- A stub decision capability that always calls the failing tool. -/
def callBoomOracle : Oracle := fun _ _ => .toolCall "try it" "boom" []

/-- C4: a tool whose execution fails does not abort the loop: the failure is
stringified into the current turn's observation (an error-indicating string),
and the run equals continuing the loop from the extended trajectory with the
remaining budget — i.e. the engine proceeds to a further decision instead of
terminating the invocation.  In particular, a network failure of the geocoding
collaborator inside the weather tool surfaces as an error string result. -/
theorem tool_failure_absorbed (reg : List Tool) (dec : List Turn → Decision)
    (fuel : Nat) (traj : List Turn) (th n : String) (args : List Value)
    (t : Tool) (e : String)
    (h1 : dec traj = .toolCall th n args)
    (h2 : lookupTool reg n = some t)
    (h3 : t.run args = .error (.execFailed e)) :
    observationOfCall reg n args = "Error: " ++ e ∧
    runLoop reg dec (fuel + 1) traj =
      runLoop reg dec fuel
        (traj ++ [{ thought := th, tool_name := n, tool_args := args,
                    observation := "Error: " ++ e }]) ∧
    (∀ (env : WeatherEnv) (city err : String), env.geocode city = Except.error err →
       get_weather_by_city env city = "Error fetching weather: " ++ err) := by
  have hobs : observationOfCall reg n args = "Error: " ++ e := by
    simp [observationOfCall, h2, h3]
  refine ⟨hobs, ?_, ?_⟩
  · have := runLoop_toolCall_step reg dec fuel traj th n args h1
    rw [this, hobs]
  · intro env city err hg
    simp only [get_weather_by_city, get_weather_by_city_body, hg]
    rfl

/-- Witness for C4: a concrete failing tool yields the error observation and
the loop continues from the extended trajectory. -/
theorem tool_failure_absorbed_witness :
    callBoomOracle "q" [] = Decision.toolCall "try it" "boom" [] ∧
    lookupTool [failingTool] "boom" = some failingTool ∧
    failingTool.run [] = Except.error (ToolFailure.execFailed "network down") ∧
    observationOfCall [failingTool] "boom" [] = "Error: " ++ "network down" :=
  ⟨rfl, rfl, rfl,
    (tool_failure_absorbed [failingTool] (callBoomOracle "q") 1 [] "try it" "boom" []
      failingTool "network down" rfl rfl rfl).1⟩

/-- C7: the engine is pure and re-entrant — an invocation's entire result
(trajectory included) is a function of the agent configuration, the stubbed
decision capability and the input alone, so two invocations with the same
input and extensionally equal deterministic decision capabilities yield
identical trajectories; in particular each adapter (`math_calculator`,
`text_processor`, `time_checker`, `weather_checker`), which constructs a
fresh agent per call, returns the same result on both invocations — no
mutable state is shared between them. -/
theorem deterministic_invocations (a : AgentCfg) (clock : Clock) (env : WeatherEnv)
    (o1 o2 : Oracle) (q : String) (h : ∀ s t, o1 s t = o2 s t) :
    runAgent a o1 q = runAgent a o2 q ∧
    (runAgent a o1 q).trajectory = (runAgent a o2 q).trajectory ∧
    math_calculator o1 q = math_calculator o2 q ∧
    text_processor o1 q = text_processor o2 q ∧
    time_checker clock o1 q = time_checker clock o2 q ∧
    weather_checker env o1 q = weather_checker env o2 q := by
  have key : ∀ b : AgentCfg, runAgent b o1 q = runAgent b o2 q := by
    intro b
    unfold runAgent
    exact runLoop_congr b.registry (o1 q) (o2 q) (fun t => h q t) b.max_iters []
  refine ⟨key a, by rw [key a], ?_, ?_, ?_, ?_⟩ <;>
    simp [math_calculator, text_processor, time_checker, weather_checker, key]

/-- Witness for C7: two invocations with the same concrete stub oracle agree. -/
theorem deterministic_invocations_witness :
    (∀ s t, callAddOracle s t = callAddOracle s t) ∧
    (runAgent mathAgent callAddOracle "what is 5 plus 3").trajectory =
      (runAgent mathAgent callAddOracle "what is 5 plus 3").trajectory :=
  ⟨fun _ _ => rfl,
    (deterministic_invocations mathAgent stubClock offlineEnv callAddOracle callAddOracle
      "what is 5 plus 3" (fun _ _ => rfl)).2.1⟩

/-- C10: the weather tools are total string-returning functions at the tool
boundary — whatever the HTTP/JSON collaborators do (including raising), each
returns either a success report, a not-found message, or a string beginning
with its error indication; no exception escapes the tool body. -/
theorem weather_tools_total (env : WeatherEnv) (c c1 c2 : String) :
    ((∃ e, get_weather_by_city env c = "Error fetching weather: " ++ e) ∨
     get_weather_by_city env c = cityNotFound c ∨
     (∃ loc w, get_weather_by_city env c = weatherReport loc w)) ∧
    ((∃ e, compare_city_temperatures env c1 c2 = "Error comparing temperatures: " ++ e) ∨
     compare_city_temperatures env c1 c2 = cityNotFound c1 ∨
     compare_city_temperatures env c1 c2 = cityNotFound c2 ∨
     (∃ t1 t2, compare_city_temperatures env c1 c2 = temperatureComparison c1 c2 t1 t2)) := by
  constructor
  · cases hg : env.geocode c with
    | error e =>
        left
        exact ⟨e, by simp only [get_weather_by_city, get_weather_by_city_body, hg]; rfl⟩
    | ok og =>
        cases og with
        | none =>
            right; left
            simp only [get_weather_by_city, get_weather_by_city_body, hg]
            rfl
        | some loc =>
            cases hw : env.current loc.latitude loc.longitude with
            | error e =>
                left
                exact ⟨e, by
                  simp only [get_weather_by_city, get_weather_by_city_body, hg,
                    except_bind_ok, except_bind_error, hw]⟩
            | ok w =>
                right; right
                exact ⟨loc, w, by
                  simp only [get_weather_by_city, get_weather_by_city_body, hg,
                    except_bind_ok, except_bind_error, hw]
                  rfl⟩
  · cases hg1 : env.geocode c1 with
    | error e =>
        left
        exact ⟨e, by
          simp only [compare_city_temperatures, compare_city_temperatures_body, hg1]; rfl⟩
    | ok og1 =>
        cases og1 with
        | none =>
            right; left
            simp only [compare_city_temperatures, compare_city_temperatures_body, hg1]
            rfl
        | some l1 =>
            cases hw1 : env.current l1.latitude l1.longitude with
            | error e =>
                left
                exact ⟨e, by
                  simp only [compare_city_temperatures, compare_city_temperatures_body, hg1,
                    except_bind_ok, except_bind_error, hw1]⟩
            | ok w1 =>
                cases hg2 : env.geocode c2 with
                | error e =>
                    left
                    exact ⟨e, by
                      simp only [compare_city_temperatures, compare_city_temperatures_body, hg1,
                        except_bind_ok, except_bind_error, hw1, hg2]⟩
                | ok og2 =>
                    cases og2 with
                    | none =>
                        right; right; left
                        simp only [compare_city_temperatures, compare_city_temperatures_body,
                          hg1, except_bind_ok, except_bind_error, hw1, hg2]
                        rfl
                    | some l2 =>
                        cases hw2 : env.current l2.latitude l2.longitude with
                        | error e =>
                            left
                            exact ⟨e, by
                              simp only [compare_city_temperatures,
                                compare_city_temperatures_body, hg1, except_bind_ok,
                                except_bind_error, hw1, hg2, hw2]⟩
                        | ok w2 =>
                            right; right; right
                            refine ⟨if c1 = c2 then w2.temperature_2m else w1.temperature_2m,
                              w2.temperature_2m, ?_⟩
                            simp only [compare_city_temperatures,
                              compare_city_temperatures_body, hg1, except_bind_ok,
                              except_bind_error, hw1, hg2, hw2]
                            rfl

/-- A fixed turn used to build concrete trajectories of given lengths. -/
def dummyTurn : Turn :=
  { thought := "", tool_name := "", tool_args := [], observation := "" }

/-- A stub coordinator decision capability that dispatches to a different
specialist adapter depending on how many turns have already happened. -/
def dispatchOracle : Oracle := fun _ traj =>
  match traj.length with
  | 0 => .toolCall "m" "math_calculator" [.str "five plus three"]
  | 1 => .toolCall "x" "text_processor" [.str "reverse this"]
  | 2 => .toolCall "t" "time_checker" [.str "time in China"]
  | _ => .toolCall "w" "weather_checker" [.str "weather in Berlin"]

/-- A stub decision capability for the math scenario: call `add_numbers(5,3)`
first, then finish with the observed result. -/
def scenarioOracle : Oracle := fun _ traj =>
  match traj with
  | [] => .toolCall "add them" "add_numbers" [.num 5, .num 3]
  | t :: _ => .finish "done" t.observation

/-- C1: each nested-agent adapter, invoked on a query, runs the wrapped
specialist agent's full loop and returns exactly that agent's declared
primary output field value as a single string; and when the coordinator's
loop executes a tool call to an adapter, the coordinator's trajectory gains
exactly one turn whose observation is that single string — the wrapped
agent's own trajectory never appears in the caller's trajectory, whatever
its length was. -/
theorem nested_adapter_single_turn
    (clock : Clock) (env : WeatherEnv) (oM oX oT oW : Oracle) (cO : Oracle) (q : String)
    (t1 t2 t3 t4 : List Turn) (m1 m2 m3 m4 : String) (x1 x2 x3 x4 : String)
    (f1 f2 f3 f4 : Nat)
    (h1 : cO q t1 = Decision.toolCall m1 "math_calculator" [Value.str x1])
    (h2 : cO q t2 = Decision.toolCall m2 "text_processor" [Value.str x2])
    (h3 : cO q t3 = Decision.toolCall m3 "time_checker" [Value.str x3])
    (h4 : cO q t4 = Decision.toolCall m4 "weather_checker" [Value.str x4]) :
    (math_calculator oM x1 = (runAgent mathAgent oM x1).output ∧
     text_processor oX x2 = (runAgent textAgent oX x2).output ∧
     time_checker clock oT x3 = (runAgent (timeAgent clock) oT x3).output ∧
     weather_checker env oW x4 = (runAgent (weatherAgent env) oW x4).output) ∧
    runLoop (mainAgent clock env oM oX oT oW).registry (cO q) (f1 + 1) t1 =
      runLoop (mainAgent clock env oM oX oT oW).registry (cO q) f1
        (t1 ++ [{ thought := m1, tool_name := "math_calculator",
                  tool_args := [Value.str x1],
                  observation := (runAgent mathAgent oM x1).output }]) ∧
    runLoop (mainAgent clock env oM oX oT oW).registry (cO q) (f2 + 1) t2 =
      runLoop (mainAgent clock env oM oX oT oW).registry (cO q) f2
        (t2 ++ [{ thought := m2, tool_name := "text_processor",
                  tool_args := [Value.str x2],
                  observation := (runAgent textAgent oX x2).output }]) ∧
    runLoop (mainAgent clock env oM oX oT oW).registry (cO q) (f3 + 1) t3 =
      runLoop (mainAgent clock env oM oX oT oW).registry (cO q) f3
        (t3 ++ [{ thought := m3, tool_name := "time_checker",
                  tool_args := [Value.str x3],
                  observation := (runAgent (timeAgent clock) oT x3).output }]) ∧
    runLoop (mainAgent clock env oM oX oT oW).registry (cO q) (f4 + 1) t4 =
      runLoop (mainAgent clock env oM oX oT oW).registry (cO q) f4
        (t4 ++ [{ thought := m4, tool_name := "weather_checker",
                  tool_args := [Value.str x4],
                  observation := (runAgent (weatherAgent env) oW x4).output }]) := by
  refine ⟨⟨rfl, rfl, rfl, rfl⟩, ?_, ?_, ?_, ?_⟩
  · exact runLoop_toolCall_step (mainAgent clock env oM oX oT oW).registry (cO q) f1 t1 m1
      "math_calculator" [Value.str x1] h1
  · exact runLoop_toolCall_step (mainAgent clock env oM oX oT oW).registry (cO q) f2 t2 m2
      "text_processor" [Value.str x2] h2
  · exact runLoop_toolCall_step (mainAgent clock env oM oX oT oW).registry (cO q) f3 t3 m3
      "time_checker" [Value.str x3] h3
  · exact runLoop_toolCall_step (mainAgent clock env oM oX oT oW).registry (cO q) f4 t4 m4
      "weather_checker" [Value.str x4] h4

/-- Witness for C1: a concrete dispatching coordinator oracle — the call to
`math_calculator` appends exactly one turn carrying the wrapped math agent's
output. -/
theorem nested_adapter_single_turn_witness :
    dispatchOracle "q" [] =
      Decision.toolCall "m" "math_calculator" [Value.str "five plus three"] ∧
    runLoop (mainAgent stubClock offlineEnv callAddOracle callAddOracle callAddOracle
        callAddOracle).registry (dispatchOracle "q") (0 + 1) [] =
      runLoop (mainAgent stubClock offlineEnv callAddOracle callAddOracle callAddOracle
        callAddOracle).registry (dispatchOracle "q") 0
        ([] ++ [{ thought := "m", tool_name := "math_calculator",
                  tool_args := [Value.str "five plus three"],
                  observation := (runAgent mathAgent callAddOracle "five plus three").output }]) :=
  ⟨rfl,
    (nested_adapter_single_turn stubClock offlineEnv callAddOracle callAddOracle callAddOracle
      callAddOracle dispatchOracle "q" [] [dummyTurn] [dummyTurn, dummyTurn]
      [dummyTurn, dummyTurn, dummyTurn] "m" "x" "t" "w" "five plus three" "reverse this"
      "time in China" "weather in Berlin" 0 0 0 0 rfl rfl rfl rfl).2.1⟩

/-- C6: on input `math_query = "what is 5 plus 3"`, with a decision
capability that correctly parses intent (first calls `add_numbers(5,3)`,
then finishes with the observed result), the math agent's loop yields a
finish decision with `math_result = "8"` after exactly 1 tool-call turn; in
particular `add_numbers 5 3 = 8` and `multiply_numbers` returns the exact
product of its arguments. -/
theorem math_scenario (oracle : Oracle) (th : String)
    (h1 : oracle "what is 5 plus 3" [] =
      Decision.toolCall th "add_numbers" [Value.num 5, Value.num 3])
    (h2 : ∀ t : Turn, ∃ th2,
      oracle "what is 5 plus 3" [t] = Decision.finish th2 t.observation) :
    (runAgent mathAgent oracle "what is 5 plus 3").output = "8" ∧
    (runAgent mathAgent oracle "what is 5 plus 3").trajectory.length = 1 ∧
    (runAgent mathAgent oracle "what is 5 plus 3").budgetExceeded = false ∧
    add_numbers 5 3 = 8 ∧ (∀ a b : ℚ, multiply_numbers a b = a * b) := by
  have hsum : add_numbers 5 3 = 8 := by norm_num [add_numbers]
  have hobs : observationOfCall math_tools "add_numbers" [Value.num 5, Value.num 3] = "8" := by
    have hl : lookupTool math_tools "add_numbers" = some add_numbers_tool := rfl
    have hr : add_numbers_tool.run [Value.num 5, Value.num 3] =
        Except.ok (Value.num (add_numbers 5 3)) := rfl
    simp only [observationOfCall, hl, hr, hsum]
    rfl
  have e1 := runLoop_toolCall_step math_tools (oracle "what is 5 plus 3") 2 [] th
    "add_numbers" [Value.num 5, Value.num 3] h1
  rw [hobs] at e1
  obtain ⟨th2, hfin⟩ := h2
    { thought := th, tool_name := "add_numbers",
      tool_args := [Value.num 5, Value.num 3], observation := "8" }
  have e2 : runLoop math_tools (oracle "what is 5 plus 3") 2
      [{ thought := th, tool_name := "add_numbers",
         tool_args := [Value.num 5, Value.num 3], observation := "8" }] =
      { output := "8",
        trajectory := [{ thought := th, tool_name := "add_numbers",
                         tool_args := [Value.num 5, Value.num 3], observation := "8" }],
        budgetExceeded := false } :=
    runLoop_finish_step math_tools (oracle "what is 5 plus 3") 1
      [{ thought := th, tool_name := "add_numbers",
         tool_args := [Value.num 5, Value.num 3], observation := "8" }] th2 _ hfin
  have e0 : runAgent mathAgent oracle "what is 5 plus 3" =
      runLoop math_tools (oracle "what is 5 plus 3") 2
        [{ thought := th, tool_name := "add_numbers",
           tool_args := [Value.num 5, Value.num 3], observation := "8" }] := by
    simpa [runAgent, mathAgent] using e1
  refine ⟨?_, ?_, ?_, hsum, fun a b => rfl⟩
  · rw [e0, e2]
  · rw [e0, e2]
    rfl
  · rw [e0, e2]

/-- Witness for C6: a concrete intent-parsing oracle yields `"8"`. -/
theorem math_scenario_witness :
    scenarioOracle "what is 5 plus 3" [] =
      Decision.toolCall "add them" "add_numbers" [Value.num 5, Value.num 3] ∧
    (runAgent mathAgent scenarioOracle "what is 5 plus 3").output = "8" :=
  ⟨rfl,
    (math_scenario scenarioOracle "add them" rfl (fun _t => ⟨"done", rfl⟩)).1⟩
